import Mathlib

/-!
Verification of the Smart-Greenhouse core (repository
SimeonBukurov/Smart-Greenhouse, directory Smart_Green_House_Code).

Shallow embedding, translated from the Python source:
  * logic.py      (GreenhouseLogic.compute, the actuator decision engine)
  * simulator.py  (EnvironmentModel.apply_tick, the environment dynamics)
  * physics.py    (GreenhousePhysics.step, the alternate dynamics model)
  * config.py     (the tunable constants)

Numbers are modelled as rationals (the Python floats carry only decimal
constants; the claims are about exact arithmetic relations).  Timestamps are
rationals counting seconds since an epoch; hour-of-day is extracted with
floor-division and mod 24 as datetime does.  The two transcendental ambient
inputs of apply_tick - the sinusoidal day/night swing factor
sin((hour - 6) / 24 * 2 * pi) used by EnvironmentModel.outside, and the
natural-light value natural_light_lux(...) - are passed to the embedded
apply_tick as explicit arguments (swing, natLux): every claim below either
holds for all their values or is settled at midnight, where the swing is
exactly -1 and the natural light is exactly lerp(120, 200, 0.5) = 160, both
rational.
-/

-- The Batteries rational-arithmetic definitions are shipped irreducible;
-- restore definitional transparency inside this file so that concrete
-- instances of the model evaluate by `decide`.
attribute [local semireducible] Rat.add Rat.mul Rat.sub Rat.inv Rat.ofScientific

/-- clamp from simulator.py: max(a, min(b, x)). -/
def clamp (x a b : ℚ) : ℚ := max a (min b x)

/-- lerp from simulator.py: a + (b - a) * k. -/
def lerp (a b k : ℚ) : ℚ := a + (b - a) * k

/-- datetime hour of a timestamp in seconds: floor to hours, mod 24. -/
def hourOf (t : ℚ) : ℤ := (t / 3600).floor % 24

/-- is_night from logic.py and simulator.py: now.hour >= 20 or now.hour < 6. -/
def isNight (t : ℚ) : Bool := decide (20 ≤ hourOf t) || decide (hourOf t < 6)

/-! ## config.py constants (control bands, hysteresis, minimum-on times) -/

def TEMP_BAND_C : ℚ := 2
def HUM_BAND_PCT : ℚ := 6
def SOIL_BAND_PCT : ℚ := 5/2
def LIGHT_BAND_LUX : ℚ := 60
def TEMP_HYST_C : ℚ := 7/10
def HUM_HYST_PCT : ℚ := 3
def MIN_ON_VENT_SEC : ℚ := 15 * 60
def MIN_ON_WIN_SEC : ℚ := 15 * 60
def MIN_ON_WATER_SEC : ℚ := 12 * 60
def MIN_ON_MIST_SEC : ℚ := 10 * 60
def MIN_ON_LIGHT_SEC : ℚ := 10 * 60
def ALLOW_LIGHT_AT_NIGHT : Bool := true
def RAIN_MM_WHEN_FORECAST : ℚ := 7/2
def MIN_NIGHT_TEMP_C : ℚ := 8
def HEATING_RATE_C_PER_HOUR : ℚ := 4
def WATER_SOIL_PCT_PER_HOUR : ℚ := 6
def MIST_HUM_PCT_PER_HOUR : ℚ := 7
def VENT_LEAK_MULT : ℚ := 55/100

/-! ## Data model -/

/-- The sensor fields GreenhouseLogic.compute reads from its values dict. -/
structure ValuesIn where
  temp : ℚ
  humidity : ℚ
  light : ℚ
  soil : ℚ
deriving DecidableEq

/-- The targets dict of GreenhouseLogic.compute. -/
structure Targets where
  temp_target : ℚ
  hum_target : ℚ
  light_min : ℚ
  soil_min : ℚ
deriving DecidableEq

/-- The fixed actuator keys of GreenhouseLogic.blank_actions. -/
structure Actions where
  heating : Bool
  ventilation : Bool
  windows : Bool
  watering : Bool
  misting : Bool
  lighting : Bool
  rainProtection : Bool
  alarm : Bool
deriving DecidableEq

/-- The faults dict passed to compute (three advisory flags). -/
structure FaultFlags where
  fan_fault : Bool
  pump_fault : Bool
  mister_fault : Bool
deriving DecidableEq

/-- GreenhouseLogic._on_since: one optional activation timestamp per key. -/
structure OnSince where
  heating : Option ℚ
  ventilation : Option ℚ
  windows : Option ℚ
  watering : Option ℚ
  misting : Option ℚ
  lighting : Option ℚ
  rainProtection : Option ℚ
  alarm : Option ℚ
deriving DecidableEq

/-- The persisted controller state: self.actions and self._on_since. -/
structure CtrlState where
  actions : Actions
  on_since : OnSince
deriving DecidableEq

/-- GreenhouseLogic.__init__: blank actions, no timestamps. -/
def initCtrl : CtrlState :=
  ⟨⟨false, false, false, false, false, false, false, false⟩,
   ⟨none, none, none, none, none, none, none, none⟩⟩

/-- GreenhouseLogic._min_on_ok: True when never started, else
(now - started).total_seconds() >= min_sec. -/
def minOnOk (started : Option ℚ) (now minSec : ℚ) : Bool :=
  match started with
  | none => true
  | some st => decide (minSec ≤ now - st)

/-- The _on_since update performed by GreenhouseLogic._set_act: stamp `now`
on a false-to-true transition, clear on a true-to-false transition, keep
otherwise.  `prev` is self.actions[key] at the start of compute (the Python
code reads self.actions, which is only reassigned at the end of compute). -/
def timerStep (prev value : Bool) (cur : Option ℚ) (now : ℚ) : Option ℚ :=
  if value && !prev then some now
  else if !value && prev then none
  else cur

/-- The Heating block of compute (lines 86-95 of logic.py): not strict,
trigger below target - band, release at or above target + hysteresis. -/
def heatFlag (prev : Bool) (temp t_tgt : ℚ) : Bool :=
  if temp < t_tgt - TEMP_BAND_C then true
  else if t_tgt + TEMP_HYST_C ≤ temp then false
  else prev

/-- The shared shape of the five strict blocks of compute: trigger wins,
else release turns off, else the prior state persists. -/
def strictFlag (prev trigger release : Bool) : Bool :=
  if trigger then true
  else if release then false
  else prev

/-- want_vent of compute: temp > temp_target + band or hum > hum_target + band. -/
def wantVent (v : ValuesIn) (tg : Targets) : Bool :=
  decide (tg.temp_target + TEMP_BAND_C < v.temp) ||
  decide (tg.hum_target + HUM_BAND_PCT < v.humidity)

/-- ok_temp of the ventilation/windows release conditions. -/
def okTemp (v : ValuesIn) (tg : Targets) : Bool :=
  decide (v.temp ≤ tg.temp_target + TEMP_BAND_C - TEMP_HYST_C)

/-- ok_hum of the ventilation/windows release conditions. -/
def okHum (v : ValuesIn) (tg : Targets) : Bool :=
  decide (v.humidity ≤ tg.hum_target + HUM_BAND_PCT - HUM_HYST_PCT)

/-- The result of one compute call: the returned actions dict, the reasons
list, and the mutated controller state. -/
structure CompOut where
  act : Actions
  reasons : List String
  state : CtrlState
deriving DecidableEq

/-- GreenhouseLogic.compute (logic.py lines 63-203), translated block by
block in source order.  Each dict entry of `act` and `_on_since` is written
by exactly one block chain, so the final value of every field is the value
of its last assignment; the lets below compute those final values in the
same evaluation order as the source.  The reason strings elide the numeric
interpolations of the source (they are diagnostics; no claim depends on
them), keeping the identifying prefix of each message. -/
def compute (s : CtrlState) (v : ValuesIn) (tg : Targets)
    (rain_forecast : Bool) (f : FaultFlags) (now : ℚ) : CompOut :=
  let night := isNight now
  -- Heating (NOT strict); reason "Temp low (...)" when triggered
  let heat_on := heatFlag s.actions.heating v.temp tg.temp_target
  let rsHeat : List String :=
    if v.temp < tg.temp_target - TEMP_BAND_C then ["Temp low"] else []
  -- STRICT: Ventilation
  let ventRelease :=
    okTemp v tg && okHum v tg && minOnOk s.on_since.ventilation now MIN_ON_VENT_SEC
  let vent1 := strictFlag s.actions.ventilation (wantVent v tg) ventRelease
  let rsVent : List String :=
    if wantVent v tg then
      (if tg.temp_target + TEMP_BAND_C < v.temp then ["Temp high"] else []) ++
      (if tg.hum_target + HUM_BAND_PCT < v.humidity then ["Humidity high"] else [])
    else []
  let osVent1 := timerStep s.actions.ventilation vent1 s.on_since.ventilation now
  -- STRICT: Windows (open with vent need, close on rain forecast; in the
  -- rain branch both arms of the source's inner if set win_on = False)
  let winRelease :=
    okTemp v tg && okHum v tg && minOnOk s.on_since.windows now MIN_ON_WIN_SEC
  let win1 :=
    if rain_forecast then false
    else strictFlag s.actions.windows (wantVent v tg) winRelease
  let rainProt := rain_forecast
  let rsWin : List String :=
    if rain_forecast then ["Rain forecast -> close windows"] else []
  let osWin1 := timerStep s.actions.windows win1 s.on_since.windows now
  -- Night policy: close vent/windows early when night and no vent need,
  -- still respecting min_on (checked against the just-updated timers)
  let kickVent := night && !wantVent v tg && minOnOk osVent1 now MIN_ON_VENT_SEC
  let vent_on := if kickVent then false else vent1
  let osVent := if kickVent then timerStep s.actions.ventilation false osVent1 now
                else osVent1
  let kickWin := night && !wantVent v tg && minOnOk osWin1 now MIN_ON_WIN_SEC
  let win_on := if kickWin then false else win1
  let osWin := if kickWin then timerStep s.actions.windows false osWin1 now
               else osWin1
  -- STRICT: Watering
  let waterRelease :=
    decide (tg.soil_min + SOIL_BAND_PCT ≤ v.soil) &&
    minOnOk s.on_since.watering now MIN_ON_WATER_SEC
  let water_on := strictFlag s.actions.watering (decide (v.soil < tg.soil_min)) waterRelease
  let rsWater : List String := if v.soil < tg.soil_min then ["Soil low"] else []
  let osWater := timerStep s.actions.watering water_on s.on_since.watering now
  -- STRICT: Misting (low threshold hum_target - band)
  let lowThr := tg.hum_target - HUM_BAND_PCT
  let mistRelease :=
    decide (lowThr + HUM_HYST_PCT ≤ v.humidity) &&
    minOnOk s.on_since.misting now MIN_ON_MIST_SEC
  let mist_on := strictFlag s.actions.misting (decide (v.humidity < lowThr)) mistRelease
  let rsMist : List String := if v.humidity < lowThr then ["Humidity low"] else []
  let osMist := timerStep s.actions.misting mist_on s.on_since.misting now
  -- STRICT: Lighting
  let allowNow := !night || ALLOW_LIGHT_AT_NIGHT
  let lightRelease :=
    decide (tg.light_min + LIGHT_BAND_LUX ≤ v.light) &&
    minOnOk s.on_since.lighting now MIN_ON_LIGHT_SEC
  let light_on := strictFlag s.actions.lighting
    (allowNow && decide (v.light < tg.light_min)) lightRelease
  let rsLight : List String :=
    if allowNow && decide (v.light < tg.light_min) then ["Light low"] else []
  let osLight := timerStep s.actions.lighting light_on s.on_since.lighting now
  -- Fault hints (reasons only, no action forced)
  let rsFaults : List String :=
    (if f.fan_fault then ["FAULT: fan_fault"] else []) ++
    (if f.pump_fault then ["FAULT: pump_fault"] else []) ++
    (if f.mister_fault then ["FAULT: mister_fault"] else [])
  let reasons := rsHeat ++ rsVent ++ rsWin ++ rsWater ++ rsMist ++ rsLight ++ rsFaults
  -- Alarm iff any reason fired
  let alarm := !reasons.isEmpty
  let act : Actions :=
    ⟨heat_on, vent_on, win_on, water_on, mist_on, light_on, rainProt, alarm⟩
  let os : OnSince :=
    ⟨s.on_since.heating, osVent, osWin, osWater, osMist, osLight,
     s.on_since.rainProtection, s.on_since.alarm⟩
  ⟨act, reasons, ⟨act, os⟩⟩

/-! ## simulator.py: EnvironmentModel -/

/-- The five-field state dict of the simulator. -/
structure Values where
  temp : ℚ
  humidity : ℚ
  light : ℚ
  soil : ℚ
  rain : ℚ
deriving DecidableEq

/-- The Faults dataclass of simulator.py. -/
structure Faults where
  fan_fault : Bool
  pump_fault : Bool
  mister_fault : Bool
deriving DecidableEq

/-- The mutable state of EnvironmentModel: faults, active anomaly name and
its optional expiry timestamp. -/
structure EnvState where
  faults : Faults
  active_anomaly : String
  anomaly_until : Option ℚ
deriving DecidableEq

/-- EnvironmentModel.__init__. -/
def initEnv : EnvState := ⟨⟨false, false, false⟩, "NORMAL", none⟩

/-- EnvironmentModel.set_anomaly: record the name and now + duration hours. -/
def setAnomaly (e : EnvState) (name : String) (now durationHours : ℚ) : EnvState :=
  ⟨e.faults, name, some (now + 3600 * durationHours)⟩

/-- EnvironmentModel.clear_anomaly. -/
def clearAnomaly (e : EnvState) : EnvState := ⟨e.faults, "NORMAL", none⟩

/-- The expiry test of the auto-clear guard in apply_tick:
anomaly_until is None or now > anomaly_until. -/
def anomalyExpired (until_ : Option ℚ) (now : ℚ) : Bool :=
  match until_ with
  | none => true
  | some u => decide (u < now)

/-- EnvironmentModel._anomaly_active: a named anomaly with an expiry that
has not passed (now <= anomaly_until). -/
def anomalyActive (e : EnvState) (now : ℚ) : Bool :=
  !decide (e.active_anomaly = "NORMAL") &&
  (match e.anomaly_until with
   | none => false
   | some u => decide (now ≤ u))

/-- The auto-clear step at the top of apply_tick (simulator.py line 110). -/
def autoClear (e : EnvState) (now : ℚ) : EnvState :=
  if !decide (e.active_anomaly = "NORMAL") && anomalyExpired e.anomaly_until now
  then clearAnomaly e else e

/-- The CITY_SEASON_OUTSIDE baseline table of simulator.py, with the
dict.get fallback (10.0, 65.0). -/
def cityBase (city season : String) : ℚ × ℚ :=
  if city = "Ruse" then
    if season = "WINTER" then (3/2, 75) else if season = "SPRING" then (15, 65)
    else if season = "SUMMER" then (33, 50) else if season = "FALL" then (16, 65)
    else (10, 65)
  else if city = "Varna" then
    if season = "WINTER" then (11/2, 78) else if season = "SPRING" then (16, 70)
    else if season = "SUMMER" then (30, 55) else if season = "FALL" then (18, 70)
    else (10, 65)
  else if city = "Burgas" then
    if season = "WINTER" then (11/2, 80) else if season = "SPRING" then (16, 70)
    else if season = "SUMMER" then (31, 55) else if season = "FALL" then (18, 70)
    else (10, 65)
  else if city = "Sofia" then
    if season = "WINTER" then (1/2, 70) else if season = "SPRING" then (14, 60)
    else if season = "SUMMER" then (32, 45) else if season = "FALL" then (15, 60)
    else (10, 65)
  else if city = "Plovdiv" then
    if season = "WINTER" then (3, 70) else if season = "SPRING" then (16, 60)
    else if season = "SUMMER" then (35, 45) else if season = "FALL" then (17, 60)
    else (10, 65)
  else (10, 65)

/-- EnvironmentModel.outside, with the transcendental factor
sin((hour_of_day(now) - 6) / 24 * 2 * pi) passed in as `swing`
(its value always lies in [-1, 1]; at midnight it is exactly -1). -/
def outside (city season : String) (swing : ℚ) : ℚ × ℚ :=
  ((cityBase city season).1 + 16/5 * swing,
   clamp ((cityBase city season).2 - 7 * swing) 25 95)

/-- dt_hours of apply_tick: max(0.01, minutes_per_tick / 60). -/
def dtHours (minutesPerTick : ℤ) : ℚ := max (1/100) ((minutesPerTick : ℚ) / 60)

/-- The soil value of apply_tick after the anomaly section and the slow
drying step, i.e. just before the Watering action is applied (simulator.py
lines 140-141 and 169-171).  It is computed from the post-auto-clear
environment state; apply_tick below uses this definition verbatim. -/
def preWaterSoil (e1 : EnvState) (v : Values) (now : ℚ) (m : ℤ) : ℚ :=
  let dtH := dtHours m
  let soil1 :=
    if anomalyActive e1 now && decide (e1.active_anomaly = "DRY_SOIL")
    then v.soil + (22 - v.soil) * clamp (22/100 * dtH) 0 (1/2)
    else v.soil
  let soil2 := soil1 + (soil1 - 8/10) * (-(15/1000 * dtH))
  clamp soil2 0 100

/-- The result of one apply_tick call: the mutated EnvironmentModel state,
the returned values dict, and the notes dict (as insertion-ordered pairs). -/
structure TickOut where
  env : EnvState
  values : Values
  notes : List (String × String)
deriving DecidableEq

/-- The body of EnvironmentModel.apply_tick after the auto-clear step
(simulator.py lines 113-220), operating on the post-auto-clear state `e1`.
The anomaly elif chain matches at most one branch (the active name is a
single string), so each state variable below takes its branch's value when
that branch is active and is unchanged otherwise.  `outT0`/`outH` are the
outside(...) pair and `natLux0` the natural_light_lux(...) value. -/
def applyTickCore (e1 : EnvState) (outT0 outH natLux0 : ℚ) (v : Values)
    (a : Actions) (now : ℚ) (m : ℤ) (rain_forecast : Bool) : TickOut :=
  let dtH := dtHours m
  let act := anomalyActive e1 now
  let nm := e1.active_anomaly
  -- forecast indicator (the incoming rain value is read and discarded)
  let rain0 := if rain_forecast then RAIN_MM_WHEN_FORECAST else 0
  -- anomalies (gradual)
  let hum1 :=
    if act && decide (nm = "DRY_AIR")
    then v.humidity + (28 - v.humidity) * clamp (30/100 * dtH) 0 (6/10)
    else if act && decide (nm = "HUMID_AIR")
    then v.humidity + (85 - v.humidity) * clamp (22/100 * dtH) 0 (1/2)
    else v.humidity
  let natLux := if act && decide (nm = "LOW_LIGHT") then natLux0 * 45/100 else natLux0
  let outT :=
    if act && decide (nm = "HEAT_WAVE") then outT0 + 8
    else if act && decide (nm = "COLD_SNAP") then outT0 - 10
    else outT0
  let rain1 := if act && decide (nm = "RAIN_FORECAST") then RAIN_MM_WHEN_FORECAST else rain0
  let faults1 : Faults :=
    ⟨e1.faults.fan_fault || (act && decide (nm = "FAN_FAULT")),
     e1.faults.pump_fault || (act && decide (nm = "PUMP_FAULT")),
     e1.faults.mister_fault || (act && decide (nm = "MISTER_FAULT"))⟩
  let anomalyNote : List (String × String) :=
    if act && decide (nm = "DRY_AIR") then [("anomaly", "Dry air event")]
    else if act && decide (nm = "HUMID_AIR") then [("anomaly", "Humid air event")]
    else if act && decide (nm = "LOW_LIGHT") then [("anomaly", "Low light (clouds)")]
    else if act && decide (nm = "HEAT_WAVE") then [("anomaly", "Heat wave")]
    else if act && decide (nm = "COLD_SNAP") then [("anomaly", "Cold snap")]
    else if act && decide (nm = "DRY_SOIL") then [("anomaly", "Dry soil event")]
    else if act && decide (nm = "RAIN_FORECAST") then [("anomaly", "Storm forecast")]
    else if act && decide (nm = "FAN_FAULT") then [("anomaly", "Fan fault injected")]
    else if act && decide (nm = "PUMP_FAULT") then [("anomaly", "Pump fault injected")]
    else if act && decide (nm = "MISTER_FAULT") then [("anomaly", "Mister fault injected")]
    else []
  -- greenhouse leakage toward outside
  let leakK := clamp (6/100 * dtH) 0 (12/100)
  let temp1 := v.temp + (outT - v.temp) * leakK
  let hum2 := hum1 + (outH - hum1) * clamp (4/100 * dtH) 0 (10/100)
  -- night floor requirement
  let temp2 := if isNight now then max temp1 MIN_NIGHT_TEMP_C else temp1
  -- natural light convergence
  let lux1 := v.light + (natLux - v.light) * clamp (65/100 * dtH) 0 (85/100)
  -- soil dries slowly, then clamp (see preWaterSoil)
  let soil3 := preWaterSoil e1 v now m
  -- actions: Heating
  let temp3 := if a.heating then temp2 + clamp (HEATING_RATE_C_PER_HOUR * dtH) 0 6 else temp2
  -- actions: Ventilation / Windows
  let ventEff0 : ℚ := if a.windows then 55/100 else 40/100
  let ventEff := if faults1.fan_fault && a.ventilation then ventEff0 * 25/100 else ventEff0
  let ventK := clamp (ventEff * VENT_LEAK_MULT * dtH) 0 (75/100)
  let temp4 := if a.ventilation || a.windows then temp3 + (outT - temp3) * ventK else temp3
  let hum3 := if a.ventilation || a.windows
              then hum2 + (outH - hum2) * clamp (75/100 * ventK) 0 (75/100) else hum2
  -- actions: Watering
  let incW := if faults1.pump_fault then WATER_SOIL_PCT_PER_HOUR * dtH * 25/100
              else WATER_SOIL_PCT_PER_HOUR * dtH
  let soil4 := if a.watering then clamp (soil3 + incW) 0 100 else soil3
  let hum4 := if a.watering then clamp (hum3 + 8/10 * dtH) 5 98 else hum3
  -- actions: Misting
  let incM := if faults1.mister_fault then MIST_HUM_PCT_PER_HOUR * dtH * 25/100
              else MIST_HUM_PCT_PER_HOUR * dtH
  let hum5 := if a.misting then clamp (hum4 + incM) 5 98 else hum4
  let temp5 := if a.misting then temp4 - 25/100 * dtH else temp4
  -- actions: Lighting (lamp target lerp(450, 520, 0.6) = 492)
  let lux2 := if a.lighting
              then lux1 + (lerp 450 520 (6/10) - lux1) * clamp (35/100 * (dtH / (25/100))) 0 (7/10)
              else lux1
  -- final clamps
  let temp6 := clamp temp5 (-20) 60
  let hum6 := clamp hum5 5 98
  let lux3 := clamp lux2 0 2000
  let notes := anomalyNote ++
    (if a.heating then [("Heating", "Heating ON")] else []) ++
    (if faults1.fan_fault && a.ventilation then [("Ventilation", "Fan fault reduces effect")] else []) ++
    (if a.watering && faults1.pump_fault then [("Watering", "Pump fault limits flow")] else []) ++
    (if a.misting && faults1.mister_fault then [("Misting", "Mister fault limits spray")] else [])
  ⟨{ e1 with faults := faults1 }, ⟨temp6, hum6, lux3, soil4, rain1⟩, notes⟩

/-- EnvironmentModel.apply_tick: auto-clear the anomaly, compute the ambient
drivers from the (city, season) table and the swing/natural-light inputs,
then run the core dynamics. -/
def applyTick (e : EnvState) (city season : String) (swing natLux0 : ℚ)
    (v : Values) (a : Actions) (now : ℚ) (m : ℤ) (rain_forecast : Bool) : TickOut :=
  let e1 := autoClear e now
  applyTickCore e1 (outside city season swing).1 (outside city season swing).2
    natLux0 v a now m rain_forecast

/-! ## physics.py: GreenhousePhysics -/

/-- The Ambient dataclass of physics.py. -/
structure Ambient where
  temp : ℚ
  humidity : ℚ
  light_day : ℚ
  light_night : ℚ
  is_day : Bool
deriving DecidableEq

/-- The rate constants physics.py imports from config.  The config.py of
Smart_Green_House_Code does not define them (only LIGHT_MIN exists, in the
sibling draft config), so they are carried as explicit parameters; every
claim about step below holds for all their values. -/
structure PhysRates where
  heat_rate_c_per_min : ℚ
  vent_cool_rate_c_per_min : ℚ
  water_soil_rate_per_min : ℚ
  mist_hum_rate_per_min : ℚ
  vent_hum_drop_per_min : ℚ
  lamp_lux_rate_per_min : ℚ
  light_min : ℚ
deriving DecidableEq

/-- The per-field random.uniform draws of physics.py lines 83-86, passed in
explicitly (an arbitrary value stands for each draw). -/
structure PhysNoise where
  n_temp : ℚ
  n_hum : ℚ
  n_light : ℚ
  n_soil : ℚ
deriving DecidableEq

/-- GreenhousePhysics.step (physics.py lines 36-94), translated in source
order: ambient drift, default soil drying, actuator effects, the rain
clamp, additive noise, final clamps. -/
def physStep (r : PhysRates) (noise : PhysNoise) (st : Values) (a : Actions)
    (ambient : Ambient) (dtMin : ℚ) : Values :=
  let ambLight := if ambient.is_day then ambient.light_day else ambient.light_night
  let temp1 := st.temp + (ambient.temp - st.temp) * (1/100 * dtMin)
  let hum1 := st.humidity + (ambient.humidity - st.humidity) * (1/100 * dtMin)
  let light1 := st.light + (ambLight - st.light) * (3/100 * dtMin)
  let soil1 := st.soil - 2/100 * dtMin
  let temp2 := if a.heating then temp1 + r.heat_rate_c_per_min * dtMin else temp1
  let temp3 := if a.ventilation || a.windows
               then temp2 - r.vent_cool_rate_c_per_min * dtMin else temp2
  let hum2 := if a.ventilation || a.windows
              then hum1 - r.vent_hum_drop_per_min * dtMin else hum1
  let soil2 := if a.watering then soil1 + r.water_soil_rate_per_min * dtMin else soil1
  let hum3 := if a.watering then hum2 + 5/100 * dtMin else hum2
  let hum4 := if a.misting then hum3 + r.mist_hum_rate_per_min * dtMin else hum3
  let temp4 := if a.misting then temp3 - 2/100 * dtMin else temp3
  let boost : ℚ := if light1 < r.light_min then 2 else 1
  let light2 := if a.lighting then light1 + r.lamp_lux_rate_per_min * boost * dtMin
                else light1
  let rain1 := clamp st.rain 0 20
  let temp5 := temp4 + noise.n_temp * dtMin
  let hum5 := hum4 + noise.n_hum * dtMin
  let light3 := light2 + noise.n_light * dtMin
  let soil3 := soil2 + noise.n_soil * dtMin
  ⟨clamp temp5 (-20) 60, clamp hum5 0 100, clamp light3 0 2500,
   clamp soil3 0 100, rain1⟩

/-! ## Strict-actuator runs (for the non-chatter property) -/

/-- The five strict actuators of the controller. -/
inductive StrictAct where
  | vent
  | win
  | water
  | mist
  | light
deriving DecidableEq

/-- The flag of a strict actuator inside an Actions record. -/
def flagOf : StrictAct → Actions → Bool
  | .vent, a => a.ventilation
  | .win, a => a.windows
  | .water, a => a.watering
  | .mist, a => a.misting
  | .light, a => a.lighting

/-- The configured minimum-on duration of a strict actuator (config.py). -/
def minOnOf : StrictAct → ℚ
  | .vent => MIN_ON_VENT_SEC
  | .win => MIN_ON_WIN_SEC
  | .water => MIN_ON_WATER_SEC
  | .mist => MIN_ON_MIST_SEC
  | .light => MIN_ON_LIGHT_SEC

/-- One tick of controller input. -/
structure TickIn where
  v : ValuesIn
  tg : Targets
  rain_forecast : Bool
  f : FaultFlags
  now : ℚ
deriving DecidableEq

/-- The driving value of a strict actuator sits exactly at its ON-band
boundary on this tick (ventilation and windows are driven by the
temperature/humidity pair, the others by a single value). -/
def boundaryInput : StrictAct → TickIn → Prop
  | .vent, i => i.v.temp = i.tg.temp_target + TEMP_BAND_C ∧
                i.v.humidity = i.tg.hum_target + HUM_BAND_PCT
  | .win, i => i.v.temp = i.tg.temp_target + TEMP_BAND_C ∧
               i.v.humidity = i.tg.hum_target + HUM_BAND_PCT
  | .water, i => i.v.soil = i.tg.soil_min
  | .mist, i => i.v.humidity = i.tg.hum_target - HUM_BAND_PCT
  | .light, i => i.v.light = i.tg.light_min

instance (a : StrictAct) (i : TickIn) : Decidable (boundaryInput a i) := by
  cases a <;> (dsimp only [boundaryInput]; infer_instance)

/-- One compute call on a packaged tick input. -/
def stepC (s : CtrlState) (i : TickIn) : CompOut :=
  compute s i.v i.tg i.rain_forecast i.f i.now

/-- The timestamps of the ticks at which a strict actuator's flag changes
value, along a run of compute calls from state `s`. -/
def transitionTimes (a : StrictAct) : CtrlState → List TickIn → List ℚ
  | _, [] => []
  | s, i :: rest =>
    if flagOf a (stepC s i).act ≠ flagOf a s.actions
    then i.now :: transitionTimes a (stepC s i).state rest
    else transitionTimes a (stepC s i).state rest

/-- Any two recorded transition times lie at least `minSec` apart. -/
def spacedBy (minSec : ℚ) (ts : List ℚ) : Prop :=
  ts.Pairwise (fun x y => minSec ≤ |x - y|)

/-! ## Concrete inputs used by the witnesses and counterexamples -/

/-- No faults. -/
def f0 : FaultFlags := ⟨false, false, false⟩

/-- A reading with temperature well below the tomato target band. -/
def vLow : ValuesIn := ⟨10, 55, 350, 45⟩

/-- The default tomato daytime targets (config.py PLANTS, TOMATO). -/
def tgStd : Targets := ⟨24, 60, 250, 45⟩

/-- One controller tick whose soil reading sits exactly at the watering
ON boundary soil_min. -/
def c6tick : TickIn := ⟨⟨20, 55, 350, 45⟩, tgStd, false, f0, 0⟩

/-- All actuators off. -/
def noActs : Actions := ⟨false, false, false, false, false, false, false, false⟩

/-- Only Misting on. -/
def mistOnly : Actions := { noActs with misting := true }

/-- Only Watering on. -/
def waterOnly : Actions := { noActs with watering := true }

/-- The night-floor scenario start state: temperature -15 C. -/
def vNight : Values := ⟨-15, 55, 350, 45, 0⟩

/-- A mid-range state used for the watering comparison runs. -/
def vSoil : Values := ⟨20, 55, 350, 50, 0⟩

/-- An environment whose pump-fault flag is set. -/
def envPump : EnvState := ⟨⟨false, true, false⟩, "NORMAL", none⟩

/-- An environment with a DRY_AIR anomaly that expires at time 100. -/
def envDry : EnvState := ⟨⟨false, false, false⟩, "DRY_AIR", some 100⟩

/-! ## Helper lemmas about clamp -/

theorem clamp_le (x a b : ℚ) (hab : a ≤ b) : clamp x a b ≤ b :=
  max_le hab (min_le_left _ _)

theorem le_clamp (x a b : ℚ) : a ≤ clamp x a b := le_max_left _ _

theorem le_clamp_of_le (x a b c : ℚ) (hcb : c ≤ b) (hcx : c ≤ x) :
    c ≤ clamp x a b :=
  le_trans (le_min hcb hcx) (le_max_right _ _)

theorem clamp_eq_self (x a b : ℚ) (hax : a ≤ x) (hxb : x ≤ b) :
    clamp x a b = x := by
  unfold clamp
  rw [min_eq_right hxb, max_eq_right hax]

theorem clamp_nonneg (x b : ℚ) : 0 ≤ clamp x 0 b := le_clamp x 0 b

/-! ## Helper lemmas about the controller -/

theorem strictFlag_false (prev release : Bool) (h : prev = false) :
    strictFlag prev false release = false := by
  cases release <;> simp [strictFlag, h]

theorem timer_second_set (prev kick w1 : Bool) (cur : Option ℚ) (now : ℚ)
    (h : kick = true → prev = false → w1 = false) :
    (if kick then timerStep prev false (timerStep prev w1 cur now) now
     else timerStep prev w1 cur now) =
    timerStep prev (if kick then false else w1) cur now := by
  cases kick with
  | false => simp
  | true =>
    cases prev with
    | false => rw [h rfl rfl]; simp [timerStep]
    | true => simp [timerStep]

/-! ## Helper lemmas for strict-actuator runs -/

theorem flagOf_stepC_false (a : StrictAct) (s : CtrlState) (i : TickIn)
    (hb : boundaryInput a i) (h : flagOf a s.actions = false) :
    flagOf a (stepC s i).act = false := by
  cases a with
  | vent =>
    obtain ⟨h1, h2⟩ := hb
    simp only [flagOf] at h ⊢
    simp only [stepC, compute]
    have hw : wantVent i.v i.tg = false := by simp [wantVent, h1, h2]
    rw [hw, strictFlag_false _ _ h]
    simp
  | win =>
    obtain ⟨h1, h2⟩ := hb
    simp only [flagOf] at h ⊢
    simp only [stepC, compute]
    have hw : wantVent i.v i.tg = false := by simp [wantVent, h1, h2]
    rw [hw, strictFlag_false _ _ h]
    simp
  | water =>
    simp only [boundaryInput] at hb
    simp only [flagOf] at h ⊢
    simp only [stepC, compute]
    have ht : decide (i.v.soil < i.tg.soil_min) = false := by simp [hb]
    rw [ht]
    exact strictFlag_false _ _ h
  | mist =>
    simp only [boundaryInput] at hb
    simp only [flagOf] at h ⊢
    simp only [stepC, compute]
    have ht : decide (i.v.humidity < i.tg.hum_target - HUM_BAND_PCT) = false := by
      simp [hb]
    rw [ht]
    exact strictFlag_false _ _ h
  | light =>
    simp only [boundaryInput] at hb
    simp only [flagOf] at h ⊢
    simp only [stepC, compute]
    have ht : decide (i.v.light < i.tg.light_min) = false := by simp [hb]
    rw [ht, Bool.and_false]
    exact strictFlag_false _ _ h

theorem stepC_state_actions (s : CtrlState) (i : TickIn) :
    (stepC s i).state.actions = (stepC s i).act := rfl

theorem transitionTimes_nil (a : StrictAct) (s : CtrlState) (ins : List TickIn)
    (hb : ∀ i ∈ ins, boundaryInput a i) (h : flagOf a s.actions = false) :
    transitionTimes a s ins = [] := by
  induction ins generalizing s with
  | nil => rfl
  | cons i rest ih =>
    have hf := flagOf_stepC_false a s i (hb i (List.mem_cons_self i rest)) h
    have hs : flagOf a (stepC s i).state.actions = false := by
      rw [stepC_state_actions]; exact hf
    simp only [transitionTimes]
    rw [if_neg (not_ne_iff.mpr (by rw [hf, h]))]
    exact ih _ (fun j hj => hb j (List.mem_cons_of_mem i hj)) hs

theorem transitionTimes_len (a : StrictAct) (s : CtrlState) (ins : List TickIn)
    (hb : ∀ i ∈ ins, boundaryInput a i) :
    (transitionTimes a s ins).length ≤ 1 := by
  induction ins generalizing s with
  | nil => simp [transitionTimes]
  | cons i rest ih =>
    by_cases h : flagOf a s.actions = false
    · rw [transitionTimes_nil a s (i :: rest) hb h]
      simp
    · have ht : flagOf a s.actions = true := by
        revert h; cases flagOf a s.actions <;> simp
      by_cases hf : flagOf a (stepC s i).act = true
      · simp only [transitionTimes]
        rw [if_neg (not_ne_iff.mpr (by rw [hf, ht]))]
        exact ih _ (fun j hj => hb j (List.mem_cons_of_mem i hj))
      · have hff : flagOf a (stepC s i).act = false := by
          revert hf; cases flagOf a (stepC s i).act <;> simp
        have hs : flagOf a (stepC s i).state.actions = false := by
          rw [stepC_state_actions]; exact hff
        simp only [transitionTimes]
        rw [if_pos (by rw [hff, ht]; exact Bool.false_ne_true)]
        rw [transitionTimes_nil a _ rest (fun j hj => hb j (List.mem_cons_of_mem i hj)) hs]
        simp

theorem spacedBy_of_len (m : ℚ) (l : List ℚ) (h : l.length ≤ 1) : spacedBy m l := by
  match l with
  | [] => exact List.Pairwise.nil
  | [x] => simp [spacedBy]
  | x :: y :: t => simp at h

/-! ## Helper lemmas about the environment model -/

theorem applyTickCore_active (e1 : EnvState) (outT outH natLux : ℚ) (v : Values)
    (a : Actions) (now : ℚ) (m : ℤ) (rf : Bool) :
    (applyTickCore e1 outT outH natLux v a now m rf).env.active_anomaly =
      e1.active_anomaly := rfl

theorem autoClear_faults (e : EnvState) (F : Faults) (now : ℚ) :
    autoClear { e with faults := F } now = { autoClear e now with faults := F } := by
  simp only [autoClear, clearAnomaly]
  split <;> rfl

theorem preWaterSoil_faults (e1 : EnvState) (F : Faults) (v : Values)
    (now : ℚ) (m : ℤ) :
    preWaterSoil { e1 with faults := F } v now m = preWaterSoil e1 v now m := rfl

theorem preWaterSoil_mem (e1 : EnvState) (v : Values) (now : ℚ) (m : ℤ) :
    0 ≤ preWaterSoil e1 v now m ∧ preWaterSoil e1 v now m ≤ 100 := by
  simp only [preWaterSoil]
  exact ⟨le_clamp _ _ _, clamp_le _ _ _ (by norm_num)⟩

theorem dtHours_pos (m : ℤ) : 0 < dtHours m :=
  lt_of_lt_of_le (by norm_num) (le_max_left _ _)

theorem autoClear_name_pump (e : EnvState) (now : ℚ)
    (h : (autoClear e now).active_anomaly = "PUMP_FAULT") :
    e.active_anomaly = "PUMP_FAULT" := by
  revert h
  simp only [autoClear, clearAnomaly]
  split
  · intro h
    simp at h
  · exact id

theorem autoClear_expired_heatwave (e : EnvState) (t0 now : ℚ)
    (h1 : t0 + 3600 * 3 < now) :
    autoClear (setAnomaly e "HEAT_WAVE" t0 3) now = clearAnomaly e := by
  simp only [autoClear, setAnomaly, anomalyExpired, clearAnomaly]
  rw [if_pos]
  simp [h1]

theorem autoClear_clearAnomaly (e : EnvState) (now : ℚ) :
    autoClear (clearAnomaly e) now = clearAnomaly e := by
  simp [autoClear, clearAnomaly]

theorem autoClear_active_of_expired (e : EnvState) (now : ℚ)
    (h : anomalyExpired e.anomaly_until now = true) :
    (autoClear e now).active_anomaly = "NORMAL" := by
  simp only [autoClear, clearAnomaly]
  split
  · rfl
  · rename_i hcond
    simp only [h, Bool.and_true, Bool.not_eq_true', decide_eq_false_iff_not,
      Decidable.not_not] at hcond
    exact hcond

/-! ## The claims -/

/-- C1: for every input to the environment step functions (any starting
state, any actuator combination, any active anomaly, any ambient drivers,
any tick length, any fault state), the returned state vector lies inside
the documented physical ranges: temperature in [-20, 60], humidity in
[0, 100], light in [0, 2500], soil in [0, 100], rain in [0, 20].  Stated
for EnvironmentModel.apply_tick and for GreenhousePhysics.step (the latter
for all rate constants and noise draws). -/
theorem clamp_invariant_step (e : EnvState) (city season : String)
    (swing natLux : ℚ) (v : Values) (a : Actions) (now : ℚ) (m : ℤ) (rf : Bool)
    (r : PhysRates) (noise : PhysNoise) (st : Values) (pa : Actions)
    (amb : Ambient) (dtMin : ℚ) :
    (-20 ≤ (applyTick e city season swing natLux v a now m rf).values.temp ∧
     (applyTick e city season swing natLux v a now m rf).values.temp ≤ 60 ∧
     0 ≤ (applyTick e city season swing natLux v a now m rf).values.humidity ∧
     (applyTick e city season swing natLux v a now m rf).values.humidity ≤ 100 ∧
     0 ≤ (applyTick e city season swing natLux v a now m rf).values.light ∧
     (applyTick e city season swing natLux v a now m rf).values.light ≤ 2500 ∧
     0 ≤ (applyTick e city season swing natLux v a now m rf).values.soil ∧
     (applyTick e city season swing natLux v a now m rf).values.soil ≤ 100 ∧
     0 ≤ (applyTick e city season swing natLux v a now m rf).values.rain ∧
     (applyTick e city season swing natLux v a now m rf).values.rain ≤ 20) ∧
    (-20 ≤ (physStep r noise st pa amb dtMin).temp ∧
     (physStep r noise st pa amb dtMin).temp ≤ 60 ∧
     0 ≤ (physStep r noise st pa amb dtMin).humidity ∧
     (physStep r noise st pa amb dtMin).humidity ≤ 100 ∧
     0 ≤ (physStep r noise st pa amb dtMin).light ∧
     (physStep r noise st pa amb dtMin).light ≤ 2500 ∧
     0 ≤ (physStep r noise st pa amb dtMin).soil ∧
     (physStep r noise st pa amb dtMin).soil ≤ 100 ∧
     0 ≤ (physStep r noise st pa amb dtMin).rain ∧
     (physStep r noise st pa amb dtMin).rain ≤ 20) := by
  constructor
  · simp only [applyTick, applyTickCore]
    refine ⟨le_clamp _ _ _, clamp_le _ _ _ (by norm_num), ?_, ?_, le_clamp _ _ _,
            le_trans (clamp_le _ _ _ (by norm_num)) (by norm_num), ?_, ?_, ?_, ?_⟩
    · exact le_trans (by norm_num) (le_clamp _ 5 98)
    · exact le_trans (clamp_le _ _ _ (by norm_num)) (by norm_num)
    · split
      · exact le_clamp _ _ _
      · simp only [preWaterSoil]; exact le_clamp _ _ _
    · split
      · exact clamp_le _ _ _ (by norm_num)
      · simp only [preWaterSoil]; exact clamp_le _ _ _ (by norm_num)
    · split_ifs <;> norm_num [RAIN_MM_WHEN_FORECAST]
    · split_ifs <;> norm_num [RAIN_MM_WHEN_FORECAST]
  · simp only [physStep]
    refine ⟨le_clamp _ _ _, clamp_le _ _ _ (by norm_num), le_clamp _ _ _,
            clamp_le _ _ _ (by norm_num), le_clamp _ _ _, clamp_le _ _ _ (by norm_num),
            le_clamp _ _ _, clamp_le _ _ _ (by norm_num),
            le_clamp _ _ _, clamp_le _ _ _ (by norm_num)⟩

/-- C2: whenever rain_forecast is true, the very same compute call returns
Windows = false and RainProtection = true, for every controller state
(including a Windows activation timer that started this instant) and every
other input: the rain override ignores the minimum-on time. -/
theorem rain_override_same_tick (s : CtrlState) (v : ValuesIn) (tg : Targets)
    (f : FaultFlags) (now : ℚ) :
    (compute s v tg true f now).act.windows = false ∧
    (compute s v tg true f now).act.rainProtection = true := by
  constructor
  · simp [compute]
  · rfl

/-- C3: Heating follows the non-strict discipline with no minimum-on delay:
the returned Heating flag is true when temperature < temp_target -
TEMP_BAND_C (same tick, regardless of the previous state), false when
temperature >= temp_target + TEMP_HYST_C, and equal to the previous Heating
state strictly between the two thresholds - which is exactly the stated
trigger / persist-until-release behaviour, tick by tick. -/
theorem heating_non_strict_discipline (s : CtrlState) (v : ValuesIn)
    (tg : Targets) (r : Bool) (f : FaultFlags) (now : ℚ) :
    (compute s v tg r f now).act.heating =
      (if v.temp < tg.temp_target - TEMP_BAND_C then true
       else if tg.temp_target + TEMP_HYST_C ≤ v.temp then false
       else s.actions.heating) := rfl

/-- C4 (counterexample): the claimed activation-timer invariant fails for
Heating.  From the initial controller state, a low temperature reading makes
the Heating flag transition false to true on this tick, yet the stored
activation timestamp for Heating stays None instead of being set to the
current time: Heating (like RainProtection) is written directly, bypassing
_set_act, so it owns no activation timer. -/
theorem activation_timer_heating_cex :
    (compute initCtrl vLow tgStd false f0 0).act.heating = true ∧
    initCtrl.actions.heating = false ∧
    (compute initCtrl vLow tgStd false f0 0).state.on_since.heating = none := by
  decide

/-- C4 (amended): the activation-timer invariant - the stored timestamp is
set to `now` exactly on a false-to-true transition of the flag, cleared
exactly on a true-to-false transition, and unchanged otherwise - holds for
the five strict actuators (Ventilation, Windows, Watering, Misting,
Lighting).  Heating and RainProtection (and Alarm) are assigned directly
without _set_act, so their stored timestamps are never touched by compute,
even when those flags transition. -/
theorem activation_timer_strict_actuators (s : CtrlState) (v : ValuesIn)
    (tg : Targets) (r : Bool) (f : FaultFlags) (now : ℚ) :
    (compute s v tg r f now).state.on_since.ventilation =
      timerStep s.actions.ventilation (compute s v tg r f now).act.ventilation
        s.on_since.ventilation now ∧
    (compute s v tg r f now).state.on_since.windows =
      timerStep s.actions.windows (compute s v tg r f now).act.windows
        s.on_since.windows now ∧
    (compute s v tg r f now).state.on_since.watering =
      timerStep s.actions.watering (compute s v tg r f now).act.watering
        s.on_since.watering now ∧
    (compute s v tg r f now).state.on_since.misting =
      timerStep s.actions.misting (compute s v tg r f now).act.misting
        s.on_since.misting now ∧
    (compute s v tg r f now).state.on_since.lighting =
      timerStep s.actions.lighting (compute s v tg r f now).act.lighting
        s.on_since.lighting now ∧
    (compute s v tg r f now).state.on_since.heating = s.on_since.heating ∧
    (compute s v tg r f now).state.on_since.rainProtection =
      s.on_since.rainProtection ∧
    (compute s v tg r f now).state.on_since.alarm = s.on_since.alarm := by
  refine ⟨?_, ?_, rfl, rfl, rfl, rfl, rfl, rfl⟩
  · simp only [compute]
    apply timer_second_set
    intro hk hp
    simp only [Bool.and_eq_true, Bool.not_eq_true'] at hk
    rw [hk.1.2]
    exact strictFlag_false _ _ hp
  · simp only [compute]
    apply timer_second_set
    intro hk hp
    simp only [Bool.and_eq_true, Bool.not_eq_true'] at hk
    rw [hk.1.2]
    cases r <;> simp [strictFlag_false _ _ hp]

/-- C5: on every compute call the returned Alarm flag is true exactly when
the tick produced at least one reason string; the actuator flags other than
Alarm are identical for any two fault inputs (faults add reason strings,
such as the literal string FAULT: fan_fault whenever fan_fault is set, but
never force an actuator off); stated as the Alarm equation, the
fault-independence of all seven other flags, and the fault reason. -/
theorem alarm_iff_any_reason (s : CtrlState) (v : ValuesIn) (tg : Targets)
    (r : Bool) (f f2 : FaultFlags) (now : ℚ) (b c : Bool) :
    ((compute s v tg r f now).act.alarm =
      !(compute s v tg r f now).reasons.isEmpty) ∧
    ((compute s v tg r f now).act.heating = (compute s v tg r f2 now).act.heating ∧
     (compute s v tg r f now).act.ventilation = (compute s v tg r f2 now).act.ventilation ∧
     (compute s v tg r f now).act.windows = (compute s v tg r f2 now).act.windows ∧
     (compute s v tg r f now).act.watering = (compute s v tg r f2 now).act.watering ∧
     (compute s v tg r f now).act.misting = (compute s v tg r f2 now).act.misting ∧
     (compute s v tg r f now).act.lighting = (compute s v tg r f2 now).act.lighting ∧
     (compute s v tg r f now).act.rainProtection =
       (compute s v tg r f2 now).act.rainProtection) ∧
    ("FAULT: fan_fault" ∈ (compute s v tg r ⟨true, b, c⟩ now).reasons) := by
  refine ⟨rfl, ⟨rfl, rfl, rfl, rfl, rfl, rfl, rfl⟩, ?_⟩
  simp [compute]

/-- C6: for every strict actuator, every starting controller state and every
input sequence whose driving value sits exactly at the actuator's ON-band
boundary on every tick, the recorded flag-transition times are pairwise at
least min_on_seconds apart; indeed the flag changes at most once over the
whole run (the hysteresis gap between the ON trigger and the OFF release
keeps a boundary oscillation from toggling the flag). -/
theorem strict_no_chatter (a : StrictAct) (s : CtrlState) (ins : List TickIn)
    (hb : ∀ i ∈ ins, boundaryInput a i) :
    spacedBy (minOnOf a) (transitionTimes a s ins) ∧
    (transitionTimes a s ins).length ≤ 1 :=
  ⟨spacedBy_of_len _ _ (transitionTimes_len a s ins hb),
   transitionTimes_len a s ins hb⟩

/-- C6 (witness): the boundary hypothesis is satisfiable - a concrete
watering tick whose soil reading equals soil_min - and the conclusion holds
for the concrete one-tick run. -/
theorem strict_no_chatter_witness :
    boundaryInput StrictAct.water c6tick ∧
    (spacedBy (minOnOf StrictAct.water)
        (transitionTimes StrictAct.water initCtrl [c6tick]) ∧
      (transitionTimes StrictAct.water initCtrl [c6tick]).length ≤ 1) :=
  ⟨by decide, strict_no_chatter StrictAct.water initCtrl [c6tick] (by decide)⟩

/-- C7 (counterexample): the night-floor guarantee does not survive the
actuator effects that run after the floor is applied.  Concrete night tick:
00:00 (the swing factor sin((0 - 6) / 24 * 2 * pi) is exactly -1 there,
natural light is exactly 160), Sofia, WINTER, start temperature -15, only
Misting active, 15-minute tick: the floor lifts the temperature to
MIN_NIGHT_TEMP_C = 8 but the misting cooling then subtracts 0.25 * 0.25,
and the returned temperature 7.9375 is below MIN_NIGHT_TEMP_C - refuting
the claim that one call yields temperature >= MIN_NIGHT_TEMP_C for every
combination of actuator flags (in particular with Misting active). -/
theorem night_floor_misting_cex :
    (applyTick initEnv "Sofia" "WINTER" (-1) 160 vNight mistOnly 0 15
        false).values.temp < MIN_NIGHT_TEMP_C := by
  decide

/-- C7 (amended): in the night-floor scenario (any tick whose simulated
hour is 02:00, start temperature -15, season WINTER, any city, any ambient
drivers, any rain forecast and any tick length) the returned temperature is
at least MIN_NIGHT_TEMP_C regardless of the Heating, Watering and Lighting
flags, provided Ventilation, Windows and Misting are off - the three
actuators whose cooling runs after the night floor and can undercut it. -/
theorem night_floor_closed_enclosure (e : EnvState) (city : String)
    (swing natLux : ℚ) (v : Values) (a : Actions) (now : ℚ) (m : ℤ) (rf : Bool)
    (htemp : v.temp = -15) (hhour : hourOf now = 2)
    (hv : a.ventilation = false) (hw : a.windows = false)
    (hm : a.misting = false) :
    MIN_NIGHT_TEMP_C ≤
      (applyTick e city "WINTER" swing natLux v a now m rf).values.temp := by
  have hn : isNight now = true := by simp [isNight, hhour]
  simp only [applyTick, applyTickCore, hn, hv, hw, hm, Bool.or_self, if_true,
    Bool.false_eq_true, if_false]
  apply le_clamp_of_le _ _ _ _ (by norm_num [MIN_NIGHT_TEMP_C])
  split
  · have h1 := le_max_right
      (v.temp +
        ((if anomalyActive (autoClear e now) now &&
              decide ((autoClear e now).active_anomaly = "HEAT_WAVE") then
            (outside city "WINTER" swing).1 + 8
          else
            if anomalyActive (autoClear e now) now &&
                decide ((autoClear e now).active_anomaly = "COLD_SNAP") then
              (outside city "WINTER" swing).1 - 10
            else (outside city "WINTER" swing).1) - v.temp) *
          clamp (6 / 100 * dtHours m) 0 (12 / 100))
      MIN_NIGHT_TEMP_C
    have h2 := clamp_nonneg (HEATING_RATE_C_PER_HOUR * dtHours m) 6
    linarith
  · exact le_max_right _ _

/-- C7 (amended, witness): the concrete night-floor scenario at 02:00 with
every actuator off satisfies the hypotheses, and the conclusion holds
there. -/
theorem night_floor_closed_enclosure_witness :
    vNight.temp = -15 ∧ hourOf 7200 = 2 ∧ noActs.ventilation = false ∧
    noActs.windows = false ∧ noActs.misting = false ∧
    MIN_NIGHT_TEMP_C ≤
      (applyTick initEnv "Sofia" "WINTER" (-1) 160 vNight noActs 7200 15
          false).values.temp := by
  refine ⟨by decide, by decide, rfl, rfl, rfl, ?_⟩
  exact night_floor_closed_enclosure initEnv "Sofia" (-1) 160 vNight noActs
    7200 15 false (by decide) (by decide) rfl rfl rfl

/-- C8 (counterexample): the increase of the soil value over a whole tick is
not exactly 25 percent under a pump fault, because the fault-independent
slow-drying term is part of both runs.  Concrete midnight tick (soil 50,
15 minutes, Watering on, identical inputs except pump_fault): the faulted
run gains 50.1905 - 50 = 0.1905 while a quarter of the unfaulted gain is
(51.3155 - 50) / 4 = 0.328875. -/
theorem pump_fault_tick_increase_cex :
    ¬ ((applyTick envPump "Sofia" "WINTER" (-1) 160 vSoil waterOnly 0 15
          false).values.soil - vSoil.soil =
       1/4 * ((applyTick initEnv "Sofia" "WINTER" (-1) 160 vSoil waterOnly 0 15
          false).values.soil - vSoil.soil)) := by
  decide

/-- C8 (amended): measured from the post-drying, pre-watering soil value
(the value the Watering action is applied to), the soil increase of the
faulted run is exactly one quarter of the unfaulted increase, for any two
apply_tick calls with identical inputs except pump_fault, provided no
PUMP_FAULT anomaly re-injects the fault and the unfaulted addition does not
hit the 100 percent cap; the full over-tick soil change additionally
contains the fault-independent drying term. -/
theorem pump_fault_quarter_watering_increment (e : EnvState)
    (city season : String) (swing natLux : ℚ) (v : Values) (a : Actions)
    (now : ℚ) (m : ℤ) (rf : Bool)
    (hwat : a.watering = true)
    (hanom : e.active_anomaly ≠ "PUMP_FAULT")
    (hcap : preWaterSoil (autoClear e now) v now m +
      WATER_SOIL_PCT_PER_HOUR * dtHours m ≤ 100) :
    (applyTick { e with faults := { e.faults with pump_fault := true } }
        city season swing natLux v a now m rf).values.soil
      - preWaterSoil (autoClear e now) v now m =
    1/4 * ((applyTick { e with faults := { e.faults with pump_fault := false } }
        city season swing natLux v a now m rf).values.soil
      - preWaterSoil (autoClear e now) v now m) := by
  have hnp : decide ((autoClear e now).active_anomaly = "PUMP_FAULT") = false :=
    decide_eq_false (fun hcon => hanom (autoClear_name_pump e now hcon))
  have hd := dtHours_pos m
  have hmem := preWaterSoil_mem (autoClear e now) v now m
  simp only [applyTick, autoClear_faults, applyTickCore, preWaterSoil_faults,
    hwat, hnp, Bool.and_false, Bool.or_false, Bool.true_or, Bool.false_or,
    if_true, Bool.false_eq_true, if_false]
  have hW : WATER_SOIL_PCT_PER_HOUR = 6 := rfl
  rw [hW] at hcap
  rw [clamp_eq_self _ _ _ (by rw [hW]; nlinarith [hmem.1]) (by rw [hW]; nlinarith),
      clamp_eq_self _ _ _ (by rw [hW]; nlinarith [hmem.1]) (by rw [hW]; nlinarith)]
  ring

/-- C8 (amended, witness): the concrete midnight watering comparison
satisfies the hypotheses (no anomaly, cap not reached) and the quarter
relation holds there. -/
theorem pump_fault_quarter_watering_increment_witness :
    waterOnly.watering = true ∧ initEnv.active_anomaly ≠ "PUMP_FAULT" ∧
    preWaterSoil (autoClear initEnv 0) vSoil 0 15 +
      WATER_SOIL_PCT_PER_HOUR * dtHours 15 ≤ 100 ∧
    (applyTick { initEnv with faults := { initEnv.faults with pump_fault := true } }
        "Sofia" "WINTER" (-1) 160 vSoil waterOnly 0 15 false).values.soil
      - preWaterSoil (autoClear initEnv 0) vSoil 0 15 =
    1/4 * ((applyTick { initEnv with faults := { initEnv.faults with pump_fault := false } }
        "Sofia" "WINTER" (-1) 160 vSoil waterOnly 0 15 false).values.soil
      - preWaterSoil (autoClear initEnv 0) vSoil 0 15) := by
  refine ⟨rfl, by decide, by decide, ?_⟩
  exact pump_fault_quarter_watering_increment initEnv "Sofia" "WINTER" (-1) 160
    vSoil waterOnly 0 15 false rfl (by decide) (by decide)

/-- C9: anomaly lifecycle.  Setting HEAT_WAVE with a 3-hour duration at t0
and evaluating apply_tick at any time strictly past t0 + 3h leaves
active_anomaly = NORMAL and produces exactly the same result as a run with
the anomaly cleared (so no HEAT_WAVE ambient modifier is applied); more
generally any tick evaluated past the stored expiry returns
active_anomaly = NORMAL; and setting a new anomaly replaces the previous
one outright, so at most one anomaly is ever active. -/
theorem anomaly_expiry_lifecycle (e e2 : EnvState) (city season : String)
    (swing natLux : ℚ) (v : Values) (a : Actions)
    (now now2 t0 t1 d1 : ℚ) (m : ℤ) (rf : Bool) (n1 : String)
    (h1 : t0 + 3600 * 3 < now)
    (h2 : anomalyExpired e2.anomaly_until now2 = true) :
    (applyTick (setAnomaly e "HEAT_WAVE" t0 3) city season swing natLux
        v a now m rf).env.active_anomaly = "NORMAL" ∧
    applyTick (setAnomaly e "HEAT_WAVE" t0 3) city season swing natLux
        v a now m rf =
      applyTick (clearAnomaly e) city season swing natLux v a now m rf ∧
    (applyTick e2 city season swing natLux v a now2 m rf).env.active_anomaly =
      "NORMAL" ∧
    setAnomaly (setAnomaly e n1 t1 d1) "HEAT_WAVE" t0 3 =
      setAnomaly e "HEAT_WAVE" t0 3 := by
  refine ⟨?_, ?_, ?_, rfl⟩
  · simp only [applyTick, autoClear_expired_heatwave e t0 now h1,
      applyTickCore_active, clearAnomaly]
  · simp only [applyTick, autoClear_expired_heatwave e t0 now h1,
      autoClear_clearAnomaly]
  · simp only [applyTick, applyTickCore_active]
    exact autoClear_active_of_expired e2 now2 h2

/-- C9 (witness): setting HEAT_WAVE at t0 = 0 and ticking at 10860 seconds
(3h01m later, strictly past the 3-hour expiry) satisfies the hypotheses,
as does a DRY_AIR anomaly expiring at 100 evaluated at 200; the lifecycle
conclusions hold there. -/
theorem anomaly_expiry_lifecycle_witness :
    (0 : ℚ) + 3600 * 3 < 10860 ∧
    anomalyExpired envDry.anomaly_until 200 = true ∧
    ((applyTick (setAnomaly initEnv "HEAT_WAVE" 0 3) "Sofia" "WINTER" (-1) 160
        vSoil noActs 10860 15 false).env.active_anomaly = "NORMAL" ∧
     applyTick (setAnomaly initEnv "HEAT_WAVE" 0 3) "Sofia" "WINTER" (-1) 160
        vSoil noActs 10860 15 false =
       applyTick (clearAnomaly initEnv) "Sofia" "WINTER" (-1) 160
        vSoil noActs 10860 15 false ∧
     (applyTick envDry "Sofia" "WINTER" (-1) 160 vSoil noActs 200 15
        false).env.active_anomaly = "NORMAL" ∧
     setAnomaly (setAnomaly initEnv "DRY_SOIL" 7 2) "HEAT_WAVE" 0 3 =
       setAnomaly initEnv "HEAT_WAVE" 0 3) := by
  refine ⟨by decide, by decide, ?_⟩
  exact anomaly_expiry_lifecycle initEnv envDry "Sofia" "WINTER" (-1) 160
    vSoil noActs 10860 200 0 7 2 15 false "DRY_SOIL" (by decide) (by decide)

/-- C10: the rain field returned by apply_tick is fully determined by the
rain_forecast flag and the active anomaly after auto-clear: it equals
RAIN_MM_WHEN_FORECAST when rain_forecast is true or a live RAIN_FORECAST
anomaly is active and 0 otherwise, and the rain value carried in the input
state is discarded - two calls differing only in the incoming rain value
return identical results. -/
theorem rain_determined_by_forecast_and_anomaly (e : EnvState)
    (city season : String) (swing natLux : ℚ) (v : Values) (a : Actions)
    (now : ℚ) (m : ℤ) (rf : Bool) (r1 r2 : ℚ) :
    ((applyTick e city season swing natLux v a now m rf).values.rain =
      if rf || (anomalyActive (autoClear e now) now &&
                decide ((autoClear e now).active_anomaly = "RAIN_FORECAST"))
      then RAIN_MM_WHEN_FORECAST else 0) ∧
    (applyTick e city season swing natLux { v with rain := r1 } a now m rf =
     applyTick e city season swing natLux { v with rain := r2 } a now m rf) := by
  constructor
  · simp only [applyTick, applyTickCore]
    cases rf <;>
      cases hact : (anomalyActive (autoClear e now) now &&
        decide ((autoClear e now).active_anomaly = "RAIN_FORECAST")) <;>
      simp [hact]
  · cases v
    rfl
